import Mathlib

/-!
Shallow embedding of the RustToy CPU governor.

The program keeps efficiency cores busy on a hybrid CPU: two sampler
threads (`CpuMonitor`, src/cpu_event.rs) watch per-core utilization and
send `CpuEvent`s over an mpsc channel; a state machine
(`CoreStateController` with `ECoreState`/`PCoreState`, src/control.rs)
consumes them and drives a pool of pinned busy-wait threads
(`SpinLooper`, src/cpu_event.rs).

Modelling conventions:
- time is a `Nat` of seconds as observed by `Instant::now()`;
- `f64` utilization readings are modelled as `ℚ`;
- a Rust `panic!` / failed `assert!` is an `Option` result of `none`
  (the process dies), `Err` returns are explicit constructors;
- thread handles are represented by the core id the thread is pinned to.
-/

namespace RustToy

/-- `CpuEvent` from src/cpu_event.rs: the two event variants carrying
the list of fully consumed core ids. -/
inductive CpuEvent where
  | EfficiencyCoreMonitor : List Nat → CpuEvent
  | PerformanceCoreMonitor : List Nat → CpuEvent
  deriving DecidableEq, Repr

/-- Whether an event is the efficiency variant (used to tag a monitor's
identity, mirroring the `event_type` field match in `CpuMonitor::start`). -/
def CpuEvent.isEfficiency : CpuEvent → Bool
  | .EfficiencyCoreMonitor _ => true
  | .PerformanceCoreMonitor _ => false

/-- `CpuMonitor` from src/cpu_event.rs. `active` is the boolean behind
the `Mutex<bool>` of the `(Mutex, Condvar)` pair; `workerSpawned`
records whether `start` has installed the sampler thread handle. -/
structure CpuMonitor where
  cores_to_monitor : List Nat
  eventIsEfficiency : Bool
  active : Bool
  workerSpawned : Bool
  deriving DecidableEq, Repr

namespace CpuMonitor

/-- `CpuMonitor::new`: stores the core list, the event tag and the
initial active flag; no worker thread yet. -/
def new (cores : List Nat) (isEff : Bool) (active : Bool) : CpuMonitor :=
  { cores_to_monitor := cores, eventIsEfficiency := isEff,
    active := active, workerSpawned := false }

/-- `CpuMonitor::pause`: takes the lock and sets `active := false`.
Nothing else is touched and no condvar notification is issued. -/
def pause (m : CpuMonitor) : CpuMonitor :=
  { m with active := false }

/-- `CpuMonitor::resume`: takes the lock, sets `active := true`, and
calls `cvar.notify_one()`. The returned `Bool` records that the
condition variable was notified (it always is). -/
def resume (m : CpuMonitor) : CpuMonitor × Bool :=
  ({ m with active := true }, true)

/-- `CpuMonitor::is_active`. -/
def is_active (m : CpuMonitor) : Bool := m.active

end CpuMonitor

/-- Outcome classes of `PdhGetFormattedCounterValue` as discriminated in
`CpuMonitor::start` (src/cpu_event.rs, lines 103-140). -/
inductive ReadStatus where
  | success
  | calcNegativeValue
  | calcNegativeDenominator
  | invalidArgument
  | invalidData
  | otherFailure
  deriving DecidableEq, Repr

/-- `CStatus` classes of the formatted counter value as tested in
`CpuMonitor::start` (lines 141-143). -/
inductive CounterStatus where
  | validData
  | newData
  | other
  deriving DecidableEq, Repr

/-- One per-core read result in a sampling cycle: the PDH return status
plus the formatted counter value (`CStatus` and `doubleValue`). -/
structure CoreReadResult where
  status : ReadStatus
  cstatus : CounterStatus
  value : ℚ
  deriving DecidableEq, Repr

/-- A read status that makes the sampler skip the core for this cycle:
`PDH_CALC_NEGATIVE_VALUE` / `PDH_CALC_NEGATIVE_DENOMINATOR` (core shut
down between the snapshots), `PDH_INVALID_ARGUMENT` and
`PDH_INVALID_DATA` (both logged via eprintln). -/
def ReadStatus.isTransientSkip : ReadStatus → Bool
  | .calcNegativeValue => true
  | .calcNegativeDenominator => true
  | .invalidArgument => true
  | .invalidData => true
  | _ => false

/-- The per-core loop of a sampling cycle (src/cpu_event.rs, lines
98-149): walks the monitored cores with their aligned read results and
accumulates `fully_consumed_cores`. `none` models the
`PdhGetFormattedCounterValue` panic on an unclassified error status;
a transient status skips the core; on success the core is pushed iff
the counter value is valid/new data and `value >= 100.0`. -/
def collectFullyConsumed : List (Nat × CoreReadResult) → Option (List Nat)
  | [] => some []
  | (core, r) :: rest =>
    match r.status with
    | .calcNegativeValue => collectFullyConsumed rest
    | .calcNegativeDenominator => collectFullyConsumed rest
    | .invalidArgument => collectFullyConsumed rest
    | .invalidData => collectFullyConsumed rest
    | .otherFailure => none
    | .success =>
      if (r.cstatus = .validData ∨ r.cstatus = .newData) ∧ 100 ≤ r.value then
        (collectFullyConsumed rest).map (core :: ·)
      else
        collectFullyConsumed rest

/-- Inputs of one iteration of the sampling loop that come from the OS:
the outcomes of the two `PdhCollectQueryData` calls, the per-core read
results, and whether the channel receiver is still alive when sending. -/
structure CycleInput where
  collect1Ok : Bool
  collect2Ok : Bool
  reads : List CoreReadResult
  receiverAlive : Bool
  deriving DecidableEq, Repr

/-- One iteration of the sampling loop body of `CpuMonitor::start`
(src/cpu_event.rs, lines 80-167), for an active monitor. `none` models
a panic (failed `PdhCollectQueryData`, unclassified read failure, or a
failed `sender.send`); `some none` is a cycle that emits no event;
`some (some e)` is a cycle that emits event `e`, tagged with the
monitor's own identity via the match on `self.event_type`. -/
def runCycle (m : CpuMonitor) (inp : CycleInput) : Option (Option CpuEvent) :=
  if !inp.collect1Ok then none
  else if !inp.collect2Ok then none
  else
    match collectFullyConsumed (m.cores_to_monitor.zip inp.reads) with
    | none => none
    | some fully_consumed_cores =>
      if fully_consumed_cores.isEmpty then
        some none
      else if inp.receiverAlive then
        some (some (if m.eventIsEfficiency then
          CpuEvent.EfficiencyCoreMonitor fully_consumed_cores
        else
          CpuEvent.PerformanceCoreMonitor fully_consumed_cores))
      else
        none

/-- `SpinLooper` from src/cpu_event.rs. `handles` holds, per live
keep-alive thread, the core id that thread is pinned to. -/
structure SpinLooper where
  core_ids : List Nat
  handles : List Nat
  should_stop : Bool
  deriving DecidableEq, Repr

namespace SpinLooper

/-- `SpinLooper::new`: stores the core ids; no threads; stop flag
false. -/
def new (core_ids : List Nat) : SpinLooper :=
  { core_ids := core_ids, handles := [], should_stop := false }

/-- `SpinLooper::start`: `assert!(self.handles.is_empty())`, then spawn
one pinned thread per assigned core id. `none` models the assertion
panic when threads already exist. -/
def start (l : SpinLooper) : Option SpinLooper :=
  if l.handles.isEmpty then
    some { l with handles := l.core_ids }
  else
    none

/-- `SpinLooper::stop_and_join`: set the stop flag, join and drain every
handle, then reset the flag to false. The returned value is the state
after the call completes. -/
def stop_and_join (l : SpinLooper) : SpinLooper :=
  { l with handles := [], should_stop := false }

end SpinLooper

/-- Governor state from src/control.rs: `ECoreState` is the unit state;
`PCoreState` carries `last_event_time` (an `Instant`, modelled as
seconds). -/
inductive GovState where
  | ecore : GovState
  | pcore : Nat → GovState
  deriving DecidableEq, Repr

/-- The mutable fields of `CoreStateController` relevant to the state
machine: the two monitors and the spin looper. The channel receiver is
modelled by feeding receive outcomes into `step`. -/
structure Controller where
  efficiency_monitor : CpuMonitor
  performance_monitor : CpuMonitor
  spin_looper : SpinLooper
  deriving DecidableEq, Repr

/-- Outcome of a receive on the event channel, as seen by a state
handler: a delivered event, a timeout (`RecvTimeoutError::Timeout`,
only possible for `recv_timeout`), or a disconnect (every sender
dropped). -/
inductive RecvOutcome where
  | event : CpuEvent → RecvOutcome
  | timeout : RecvOutcome
  | disconnected : RecvOutcome
  deriving DecidableEq, Repr

/-- Result of one `handle` call of the governor loop: a successor
controller and state, an `Err` return (which `run` propagates and the
process exits on), or a panic (failed assertion inside the call). -/
inductive StepResult where
  | next : Controller → GovState → StepResult
  | fatalError : StepResult
  | panicked : StepResult
  deriving DecidableEq, Repr

/-- `CoreStateController::new` (src/control.rs, lines 25-51): the
efficiency monitor starts active on the e-core ids, the performance
monitor starts paused on the remaining cores, both workers are started,
the spin looper is built (not started), and the initial state is
`ECoreState`. -/
def Controller.init (e_core_ids rest_of_cores : List Nat) : Controller :=
  { efficiency_monitor :=
      { CpuMonitor.new e_core_ids true true with workerSpawned := true }
    performance_monitor :=
      { CpuMonitor.new rest_of_cores false false with workerSpawned := true }
    spin_looper := SpinLooper.new e_core_ids }

/-- `CoreStateController::switch_to_ecore_state` (lines 70-76): pause
the performance monitor, resume the efficiency monitor, stop and join
the pool, and become `ECoreState`. -/
def Controller.switch_to_ecore_state (c : Controller) : Controller × GovState :=
  ({ c with
      performance_monitor := c.performance_monitor.pause
      efficiency_monitor := (c.efficiency_monitor.resume).1
      spin_looper := c.spin_looper.stop_and_join },
   .ecore)

/-- `CoreStateController::switch_to_pcore_state` (lines 78-84): pause
the efficiency monitor, resume the performance monitor, start the pool
(which can panic on double start), and become `PCoreState::new()` with
`last_event_time = Instant::now()`. -/
def Controller.switch_to_pcore_state (c : Controller) (now : Nat) : StepResult :=
  match c.spin_looper.start with
  | none => .panicked
  | some l =>
    .next { c with
        efficiency_monitor := c.efficiency_monitor.pause
        performance_monitor := (c.performance_monitor.resume).1
        spin_looper := l }
      (.pcore now)

/-- One `handle` call of the governor (src/control.rs): dispatches on
the current state and the receive outcome. `ECoreState::handle` (lines
90-110) blocks on `recv()`, so a timeout outcome cannot occur there and
is mapped to `none`; `PCoreState::handle` (lines 125-153) uses
`recv_timeout(10s)` and compares `last_event_time.elapsed()` against 10
seconds on timeout. `now` is the current time in seconds. -/
def step (c : Controller) (s : GovState) (r : RecvOutcome) (now : Nat) :
    Option StepResult :=
  match s with
  | .ecore =>
    match r with
    | .event (.EfficiencyCoreMonitor _) => some (c.switch_to_pcore_state now)
    | .event (.PerformanceCoreMonitor _) => some (.next c .ecore)
    | .timeout => none
    | .disconnected => some .fatalError
  | .pcore last_event_time =>
    match r with
    | .event (.PerformanceCoreMonitor _) => some (.next c (.pcore now))
    | .event (.EfficiencyCoreMonitor _) => some (.next c (.pcore last_event_time))
    | .timeout =>
      if 10 ≤ now - last_event_time then
        some (.next (c.switch_to_ecore_state).1 (c.switch_to_ecore_state).2)
      else
        some (.next c (.pcore last_event_time))
    | .disconnected => some .fatalError

/-- Reachable configurations of the governor loop
(`CoreStateController::run`): the initial configuration for any core
split, closed under successful steps. -/
inductive Reachable : Controller → GovState → Prop where
  | init (e_core_ids rest_of_cores : List Nat) :
      Reachable (Controller.init e_core_ids rest_of_cores) .ecore
  | step {c s c₂ s₂} (r : RecvOutcome) (now : Nat) :
      Reachable c s → step c s r now = some (.next c₂ s₂) → Reachable c₂ s₂

/-- The governor loop `CoreStateController::run` (src/control.rs, lines
53-68) driven by a finite list of receive outcomes, each with the time
at which it is handled: fold `step` until the inputs run out or the
loop ends with an error or a panic. -/
def runLoop : Controller → GovState → List (RecvOutcome × Nat) → Option StepResult
  | c, s, [] => some (.next c s)
  | c, s, (r, now) :: rest =>
    match step c s r now with
    | some (.next c₂ s₂) => runLoop c₂ s₂ rest
    | other => other

/-- The `PdhAddCounterW` loop of `CpuMonitor::start` (src/cpu_event.rs,
lines 60-78): panic (`none`) on the first counter whose creation
fails. -/
def addCounters : List Bool → Option Unit
  | [] => some ()
  | ok :: rest => if ok then addCounters rest else none

/-- The query setup of `CpuMonitor::start` (src/cpu_event.rs, lines
50-78): `PdhOpenQueryW` panics on failure, then each
`PdhAddCounterW` panics on failure. -/
def setupQuery (openOk : Bool) (addOks : List Bool) : Option Unit :=
  if openOk then addCounters addOks else none

/-- The keep-alive invariant: the pool's assigned core ids are the
efficiency monitor's core ids, the pool has no live threads in
`ECoreState`, and in `PCoreState` it has exactly one live thread per
assigned core id. -/
def KeepAliveInv (c : Controller) (s : GovState) : Prop :=
  c.spin_looper.core_ids = c.efficiency_monitor.cores_to_monitor ∧
  (s = .ecore → c.spin_looper.handles = []) ∧
  (∀ t, s = .pcore t → c.spin_looper.handles = c.spin_looper.core_ids)

/-! ## Helper lemmas -/

/-- When no read in a cycle hits an unclassified failure, the per-core
loop survives and accumulates exactly the successfully read, valid,
saturated cores, in list order. -/
theorem collectFullyConsumed_of_no_failure (ps : List (Nat × CoreReadResult))
    (h : ∀ p ∈ ps, p.2.status ≠ ReadStatus.otherFailure) :
    collectFullyConsumed ps =
      some ((ps.filter fun p =>
        p.2.status = ReadStatus.success ∧
        (p.2.cstatus = CounterStatus.validData ∨ p.2.cstatus = CounterStatus.newData) ∧
        100 ≤ p.2.value).map Prod.fst) := by
  induction ps with
  | nil => rfl
  | cons p rest ih =>
    obtain ⟨core, r⟩ := p
    have hrest : ∀ q ∈ rest, q.2.status ≠ ReadStatus.otherFailure :=
      fun q hq => h q (List.mem_cons_of_mem _ hq)
    have hr : r.status ≠ ReadStatus.otherFailure := h (core, r) (List.mem_cons_self _ _)
    cases hst : r.status with
    | otherFailure => exact absurd hst hr
    | calcNegativeValue =>
      simp [collectFullyConsumed, hst, ih hrest, List.filter_cons]
    | calcNegativeDenominator =>
      simp [collectFullyConsumed, hst, ih hrest, List.filter_cons]
    | invalidArgument =>
      simp [collectFullyConsumed, hst, ih hrest, List.filter_cons]
    | invalidData =>
      simp [collectFullyConsumed, hst, ih hrest, List.filter_cons]
    | success =>
      by_cases hcond :
          (r.cstatus = CounterStatus.validData ∨ r.cstatus = CounterStatus.newData) ∧
            100 ≤ r.value
      · simp [collectFullyConsumed, hst, hcond, ih hrest, List.filter_cons]
      · simp [collectFullyConsumed, hst, hcond, ih hrest, List.filter_cons]

/-- If any read of a cycle hits an unclassified failure, the per-core
loop panics. -/
theorem collectFullyConsumed_of_failure (ps : List (Nat × CoreReadResult))
    (h : ∃ p ∈ ps, p.2.status = ReadStatus.otherFailure) :
    collectFullyConsumed ps = none := by
  induction ps with
  | nil => simp at h
  | cons p rest ih =>
    obtain ⟨core, r⟩ := p
    obtain ⟨q, hq, hqs⟩ := h
    rcases List.mem_cons.mp hq with hq1 | hq2
    · subst hq1
      simp only at hqs
      simp [collectFullyConsumed, hqs]
    · have hrest := ih ⟨q, hq2, hqs⟩
      cases hst : r.status <;>
        simp [collectFullyConsumed, hst, hrest]

/-- In `ECoreState`, a run consuming only performance-monitor events
leaves the controller and the state untouched. -/
theorem runLoop_ecore_perf (c : Controller) (inputs : List (RecvOutcome × Nat))
    (h : ∀ p ∈ inputs, ∃ cs, p.1 = RecvOutcome.event (.PerformanceCoreMonitor cs)) :
    runLoop c .ecore inputs = some (.next c .ecore) := by
  induction inputs with
  | nil => rfl
  | cons p rest ih =>
    obtain ⟨cs, hp⟩ := h p (List.mem_cons_self _ _)
    obtain ⟨r, now⟩ := p
    simp only at hp
    subst hp
    simpa [runLoop, step] using ih fun q hq => h q (List.mem_cons_of_mem _ hq)

/-- In `PCoreState`, a run consuming only performance-monitor events
keeps the controller untouched and the state in `PCoreState`. -/
theorem runLoop_pcore_perf (c : Controller) (t : Nat)
    (inputs : List (RecvOutcome × Nat))
    (h : ∀ p ∈ inputs, ∃ cs, p.1 = RecvOutcome.event (.PerformanceCoreMonitor cs)) :
    ∃ t₂, runLoop c (.pcore t) inputs = some (.next c (.pcore t₂)) := by
  induction inputs generalizing t with
  | nil => exact ⟨t, rfl⟩
  | cons p rest ih =>
    obtain ⟨cs, hp⟩ := h p (List.mem_cons_self _ _)
    obtain ⟨r, now⟩ := p
    simp only at hp
    subst hp
    obtain ⟨t₂, ht₂⟩ := ih now fun q hq => h q (List.mem_cons_of_mem _ hq)
    exact ⟨t₂, by simpa [runLoop, step] using ht₂⟩

/-- Every reachable configuration of the governor satisfies the
keep-alive invariant. -/
theorem reachable_keepAliveInv {c : Controller} {s : GovState}
    (h : Reachable c s) : KeepAliveInv c s := by
  induction h with
  | init e_core_ids rest_of_cores =>
    refine ⟨rfl, fun _ => rfl, fun t ht => (nomatch ht)⟩
  | step r now hreach hstep ih =>
    rename_i c s c₂ s₂
    obtain ⟨hcore, hec, hpc⟩ := ih
    cases s with
    | ecore =>
      cases r with
      | event e =>
        cases e with
        | EfficiencyCoreMonitor cs =>
          have hempty : c.spin_looper.handles = [] := hec rfl
          simp [step, Controller.switch_to_pcore_state, SpinLooper.start,
            hempty] at hstep
          obtain ⟨rfl, rfl⟩ := hstep
          exact ⟨hcore, fun hcontra => (nomatch hcontra), fun t ht => rfl⟩
        | PerformanceCoreMonitor cs =>
          simp [step] at hstep
          obtain ⟨rfl, rfl⟩ := hstep
          exact ⟨hcore, hec, hpc⟩
      | timeout => simp [step] at hstep
      | disconnected => simp [step] at hstep
    | pcore t =>
      cases r with
      | event e =>
        cases e with
        | EfficiencyCoreMonitor cs =>
          simp [step] at hstep
          obtain ⟨rfl, rfl⟩ := hstep
          exact ⟨hcore, fun hcontra => (nomatch hcontra), fun u hu => hpc t rfl⟩
        | PerformanceCoreMonitor cs =>
          simp [step] at hstep
          obtain ⟨rfl, rfl⟩ := hstep
          exact ⟨hcore, fun hcontra => (nomatch hcontra), fun u hu => hpc t rfl⟩
      | timeout =>
        by_cases helapsed : 10 ≤ now - t
        · simp [step, helapsed, Controller.switch_to_ecore_state] at hstep
          obtain ⟨rfl, rfl⟩ := hstep
          exact ⟨hcore, fun _ => rfl, fun u hu => (nomatch hu)⟩
        · simp [step, helapsed] at hstep
          obtain ⟨rfl, rfl⟩ := hstep
          exact ⟨hcore, fun hcontra => (nomatch hcontra), fun u hu => hpc t rfl⟩
      | disconnected => simp [step] at hstep

/-! ## Claim theorems -/

/-- C1: Keep-alive (spin-loop) threads exist iff the governor state is
`PerformanceEnabled`, and their count equals the efficiency core-set
size: in every reachable configuration, the live keep-alive thread
count is 0 in `ECoreState` and equals the number of efficiency core ids
in `PCoreState`. -/
theorem C1_keepalive_thread_invariant (c : Controller) (s : GovState)
    (h : Reachable c s) :
    (s = .ecore → c.spin_looper.handles.length = 0) ∧
    (∀ t, s = .pcore t →
      c.spin_looper.handles.length =
        c.efficiency_monitor.cores_to_monitor.length) := by
  obtain ⟨hcore, hec, hpc⟩ := reachable_keepAliveInv h
  exact ⟨fun he => by simp [hec he], fun t ht => by rw [hpc t ht, hcore]⟩

/-- C1 witness: the invariant at the initial configuration. -/
theorem C1_keepalive_thread_invariant_witness :
    (Controller.init [4, 5] [0, 1, 2, 3]).spin_looper.handles.length = 0 :=
  (C1_keepalive_thread_invariant _ _ (Reachable.init [4, 5] [0, 1, 2, 3])).1 rfl

/-- C2: Hysteresis in `PCoreState`: a performance-saturation event sets
`last_event_time` to now and stays; a channel timeout reverts to
`ECoreState` iff at least 10 seconds elapsed since `last_event_time`,
and otherwise leaves the state unchanged; a run of consecutive
performance-saturation events never causes reversion. -/
theorem C2_hysteresis (c : Controller) (t now : Nat) :
    (∀ cs, step c (.pcore t) (.event (.PerformanceCoreMonitor cs)) now =
      some (.next c (.pcore now))) ∧
    (10 ≤ now - t → step c (.pcore t) .timeout now =
      some (.next (c.switch_to_ecore_state).1 .ecore)) ∧
    (now - t < 10 → step c (.pcore t) .timeout now =
      some (.next c (.pcore t))) ∧
    ((∃ c₂, step c (.pcore t) .timeout now = some (.next c₂ .ecore)) ↔
      10 ≤ now - t) ∧
    (∀ inputs : List (RecvOutcome × Nat),
      (∀ p ∈ inputs, ∃ cs, p.1 = RecvOutcome.event (.PerformanceCoreMonitor cs)) →
      ∃ t₂, runLoop c (.pcore t) inputs = some (.next c (.pcore t₂))) := by
  refine ⟨fun cs => rfl,
    fun h => by simp [step, h, Controller.switch_to_ecore_state],
    fun h => by simp [step, Nat.not_le.mpr h], ?_,
    fun inputs h => runLoop_pcore_perf c t inputs h⟩
  constructor
  · rintro ⟨c₂, hc₂⟩
    by_contra hlt
    simp [step, hlt] at hc₂
  · intro h
    exact ⟨(c.switch_to_ecore_state).1,
      by simp [step, h, Controller.switch_to_ecore_state]⟩

/-- C2 witness: with `last_event_time = 0`, a timeout handled at time 10
reverts to `ECoreState`; with `last_event_time = 5` it stays; a
performance event at time 3 resets the timestamp to 3. -/
theorem C2_hysteresis_witness :
    step (Controller.init [1] [0]) (.pcore 0) .timeout 10 =
      some (.next ((Controller.init [1] [0]).switch_to_ecore_state).1 .ecore) ∧
    step (Controller.init [1] [0]) (.pcore 5) .timeout 10 =
      some (.next (Controller.init [1] [0]) (.pcore 5)) ∧
    step (Controller.init [1] [0]) (.pcore 0)
        (.event (.PerformanceCoreMonitor [0])) 3 =
      some (.next (Controller.init [1] [0]) (.pcore 3)) :=
  ⟨(C2_hysteresis _ 0 10).2.1 (by decide),
   (C2_hysteresis _ 5 10).2.2.1 (by decide),
   (C2_hysteresis _ 0 3).1 [0]⟩

/-- C4: Forward transition: in `ECoreState`, an efficiency-saturation
event pauses the efficiency monitor, resumes the performance monitor,
starts the keep-alive pool (one thread per assigned core id) and moves
to `PCoreState` with `last_event_time = now`; any other event leaves
the controller and the state unchanged. -/
theorem C4_forward_transition (c : Controller) (now : Nat) (cs : List Nat)
    (h : c.spin_looper.handles = []) :
    step c .ecore (.event (.EfficiencyCoreMonitor cs)) now =
      some (.next
        { c with
            efficiency_monitor := c.efficiency_monitor.pause
            performance_monitor := (c.performance_monitor.resume).1
            spin_looper :=
              { c.spin_looper with handles := c.spin_looper.core_ids } }
        (.pcore now)) ∧
    step c .ecore (.event (.PerformanceCoreMonitor cs)) now =
      some (.next c .ecore) := by
  constructor
  · simp [step, Controller.switch_to_pcore_state, SpinLooper.start, h]
  · rfl

/-- C4 witness: the forward transition at a concrete initial
controller. -/
theorem C4_forward_transition_witness :
    step (Controller.init [3] [0, 1, 2]) .ecore
        (.event (.EfficiencyCoreMonitor [3])) 7 =
      some (.next
        { Controller.init [3] [0, 1, 2] with
            efficiency_monitor :=
              (Controller.init [3] [0, 1, 2]).efficiency_monitor.pause
            performance_monitor :=
              ((Controller.init [3] [0, 1, 2]).performance_monitor.resume).1
            spin_looper :=
              { (Controller.init [3] [0, 1, 2]).spin_looper with
                  handles := (Controller.init [3] [0, 1, 2]).spin_looper.core_ids } }
        (.pcore 7)) :=
  (C4_forward_transition (Controller.init [3] [0, 1, 2]) 7 [3] rfl).1

/-- C7: Channel disconnect is fatal in both states: the handler returns
an error (ending the governor loop) in `ECoreState` and in
`PCoreState`. -/
theorem C7_disconnect_fatal (c : Controller) (t now : Nat) :
    step c .ecore .disconnected now = some .fatalError ∧
    step c (.pcore t) .disconnected now = some .fatalError :=
  ⟨rfl, rfl⟩

/-- C8: Double start of the keep-alive pool fails loudly: `start` on a
pool with a non-empty handle list panics on the assertion; on an empty
handle list the assertion passes and one thread is spawned per assigned
core id. -/
theorem C8_double_start (l : SpinLooper) :
    (l.handles ≠ [] → l.start = none) ∧
    (l.handles = [] → l.start = some { l with handles := l.core_ids }) := by
  constructor
  · intro h
    simp [SpinLooper.start, h]
  · intro h
    simp [SpinLooper.start, h]

/-- C8 witness: a started pool panics on restart; a fresh pool spawns
one thread per core id. -/
theorem C8_double_start_witness :
    SpinLooper.start ⟨[5, 6], [5, 6], false⟩ = none ∧
    SpinLooper.start ⟨[5, 6], [], false⟩ = some ⟨[5, 6], [5, 6], false⟩ :=
  ⟨(C8_double_start _).1 (by decide), (C8_double_start _).2 rfl⟩

/-- C9: Pause and resume are idempotent: `resume` on an active monitor
and `pause` on a paused monitor change nothing; repeated calls collapse
to one; neither touches the cores or the worker handle; and `resume`
always notifies the condition variable so the waiting sampler wakes
without polling. -/
theorem C9_pause_resume_idempotent (m : CpuMonitor) :
    (m.active = true → (m.resume).1 = m) ∧
    (m.active = false → m.pause = m) ∧
    ((m.resume).1.resume = m.resume) ∧
    (m.pause.pause = m.pause) ∧
    (m.resume).1.active = true ∧ (m.resume).2 = true ∧
    (m.resume).1.cores_to_monitor = m.cores_to_monitor ∧
    (m.resume).1.workerSpawned = m.workerSpawned ∧
    m.pause.cores_to_monitor = m.cores_to_monitor ∧
    m.pause.workerSpawned = m.workerSpawned := by
  obtain ⟨cores, isEff, a, w⟩ := m
  refine ⟨fun h => ?_, fun h => ?_, rfl, rfl, rfl, rfl, rfl, rfl, rfl, rfl⟩
  · subst h; rfl
  · subst h; rfl

/-- C9 witness: resume on an active monitor and pause on a paused
monitor are exact no-ops. -/
theorem C9_pause_resume_idempotent_witness :
    ((CpuMonitor.new [0, 1] true true).resume).1 = CpuMonitor.new [0, 1] true true ∧
    (CpuMonitor.new [0, 1] false false).pause = CpuMonitor.new [0, 1] false false :=
  ⟨(C9_pause_resume_idempotent _).1 rfl,
   (C9_pause_resume_idempotent _).2.1 rfl⟩

/-- C10: `stop_and_join` always leaves an empty handle list and a false
stop flag, so a subsequent `start` passes its assertion; on a
never-started pool the call is a no-op. -/
theorem C10_stop_and_join_restores (l : SpinLooper) (ids : List Nat) :
    (l.stop_and_join).handles = [] ∧
    (l.stop_and_join).should_stop = false ∧
    (l.stop_and_join).start =
      some { l.stop_and_join with handles := (l.stop_and_join).core_ids } ∧
    (SpinLooper.new ids).stop_and_join = SpinLooper.new ids :=
  ⟨rfl, rfl, rfl, rfl⟩

/-- C5: With an empty efficiency core set, a sampling cycle of the
efficiency monitor emits no event and does not panic, and the governor
fed any sequence of performance-monitor events stays in `ECoreState`
with the same controller and no error. -/
theorem C5_empty_ecore_set (m : CpuMonitor) (inp : CycleInput)
    (hm : m.cores_to_monitor = [])
    (hc1 : inp.collect1Ok = true) (hc2 : inp.collect2Ok = true) :
    runCycle m inp = some none ∧
    ∀ (rest : List Nat) (inputs : List (RecvOutcome × Nat)),
      (∀ p ∈ inputs, ∃ cs, p.1 = RecvOutcome.event (.PerformanceCoreMonitor cs)) →
      runLoop (Controller.init [] rest) .ecore inputs =
        some (.next (Controller.init [] rest) .ecore) := by
  constructor
  · simp [runCycle, hm, hc1, hc2, collectFullyConsumed]
  · intro rest inputs h
    exact runLoop_ecore_perf _ inputs h

/-- C5 witness: the empty-set sampler cycle and a governor run on one
performance event. -/
theorem C5_empty_ecore_set_witness :
    runCycle (CpuMonitor.new [] true true) ⟨true, true, [], true⟩ = some none ∧
    runLoop (Controller.init [] [0, 1]) .ecore
        [(.event (.PerformanceCoreMonitor [0]), 1)] =
      some (.next (Controller.init [] [0, 1]) .ecore) :=
  ⟨(C5_empty_ecore_set (CpuMonitor.new [] true true)
      ⟨true, true, [], true⟩ rfl rfl rfl).1,
   (C5_empty_ecore_set (CpuMonitor.new [] true true)
      ⟨true, true, [], true⟩ rfl rfl rfl).2 [0, 1] _
    (fun p hp => by
      rw [List.mem_singleton] at hp
      subst hp
      exact ⟨[0], rfl⟩)⟩

/-- Helper: the counter-creation loop succeeds iff every
`PdhAddCounterW` call succeeds. -/
theorem addCounters_eq_some (addOks : List Bool) :
    addCounters addOks = some () ↔ ∀ b ∈ addOks, b = true := by
  induction addOks with
  | nil => simp [addCounters]
  | cons b rest ih => cases b <;> simp [addCounters, ih]

/-- C3: Saturation classification: in a cycle where every monitored
core reads back successfully with valid data, the saturated set is
exactly the cores whose reading is at least 100, in the order of the
monitored core list, and an event tagged with the monitor's identity is
emitted iff that set is non-empty. -/
theorem C3_saturation_classification (m : CpuMonitor) (inp : CycleInput)
    (hc1 : inp.collect1Ok = true) (hc2 : inp.collect2Ok = true)
    (hrecv : inp.receiverAlive = true)
    (hok : ∀ r ∈ inp.reads, r.status = ReadStatus.success ∧
      r.cstatus = CounterStatus.validData) :
    collectFullyConsumed (m.cores_to_monitor.zip inp.reads) =
      some (((m.cores_to_monitor.zip inp.reads).filter
        fun p => 100 ≤ p.2.value).map Prod.fst) ∧
    (((m.cores_to_monitor.zip inp.reads).filter
        fun p => 100 ≤ p.2.value).map Prod.fst = [] →
      runCycle m inp = some none) ∧
    (((m.cores_to_monitor.zip inp.reads).filter
        fun p => 100 ≤ p.2.value).map Prod.fst ≠ [] →
      runCycle m inp =
        some (some (if m.eventIsEfficiency then
          CpuEvent.EfficiencyCoreMonitor
            (((m.cores_to_monitor.zip inp.reads).filter
              fun p => 100 ≤ p.2.value).map Prod.fst)
        else
          CpuEvent.PerformanceCoreMonitor
            (((m.cores_to_monitor.zip inp.reads).filter
              fun p => 100 ≤ p.2.value).map Prod.fst)))) := by
  have hz : ∀ p ∈ m.cores_to_monitor.zip inp.reads,
      p.2.status = ReadStatus.success ∧ p.2.cstatus = CounterStatus.validData :=
    fun p hp => hok p.2 (List.of_mem_zip hp).2
  have hcol := collectFullyConsumed_of_no_failure (m.cores_to_monitor.zip inp.reads)
    (fun p hp => by rw [(hz p hp).1]; intro hcontra; cases hcontra)
  have hfe : List.filter (fun p => decide (p.2.status = ReadStatus.success ∧
      (p.2.cstatus = CounterStatus.validData ∨
        p.2.cstatus = CounterStatus.newData) ∧
      100 ≤ p.2.value)) (m.cores_to_monitor.zip inp.reads) =
      List.filter (fun p => decide (100 ≤ p.2.value))
        (m.cores_to_monitor.zip inp.reads) :=
    List.filter_congr (fun p hp => by
      obtain ⟨h1, h2⟩ := hz p hp
      simp [h1, h2])
  rw [hfe] at hcol
  refine ⟨hcol, fun hempty => ?_, fun hne => ?_⟩
  · simp [runCycle, hc1, hc2, hcol, hempty]
  · simp [runCycle, hc1, hc2, hrecv, hcol, hne]

/-- C3 witness: readings 99.9, 100, 100 on cores 0, 1, 2 saturate
exactly cores 1 and 2, in order, and emit one efficiency event. -/
theorem C3_saturation_classification_witness :
    runCycle (CpuMonitor.new [0, 1, 2] true true)
        ⟨true, true,
         [⟨.success, .validData, 999/10⟩, ⟨.success, .validData, 100⟩,
          ⟨.success, .validData, 100⟩], true⟩ =
      some (some (CpuEvent.EfficiencyCoreMonitor [1, 2])) :=
  ((C3_saturation_classification (CpuMonitor.new [0, 1, 2] true true)
      ⟨true, true,
       [⟨.success, .validData, 999/10⟩, ⟨.success, .validData, 100⟩,
        ⟨.success, .validData, 100⟩], true⟩
      rfl rfl rfl (by decide)).2.2
    (by norm_num [CpuMonitor.new, List.zip, List.zipWith, List.filter]
        decide)).trans
    (by norm_num [CpuMonitor.new, List.zip, List.zipWith, List.filter])

/-- C6: Transient per-core read anomalies only exclude the affected
core from the cycle's saturated set and never end the sampler, while a
failed collect, an unclassified per-core read failure, a failed event
send, or a query setup failure each terminate the process. -/
theorem C6_error_taxonomy (m : CpuMonitor) (inp : CycleInput) :
    ((∀ r ∈ inp.reads, r.status ≠ ReadStatus.otherFailure) →
      inp.collect1Ok = true → inp.collect2Ok = true →
      inp.receiverAlive = true → runCycle m inp ≠ none) ∧
    ((∀ r ∈ inp.reads, r.status ≠ ReadStatus.otherFailure) →
      collectFullyConsumed (m.cores_to_monitor.zip inp.reads) =
        some (((m.cores_to_monitor.zip inp.reads).filter fun p =>
          p.2.status = ReadStatus.success ∧
          (p.2.cstatus = CounterStatus.validData ∨
            p.2.cstatus = CounterStatus.newData) ∧
          100 ≤ p.2.value).map Prod.fst)) ∧
    (inp.collect1Ok = false → runCycle m inp = none) ∧
    (inp.collect2Ok = false → runCycle m inp = none) ∧
    ((∃ p ∈ m.cores_to_monitor.zip inp.reads,
        p.2.status = ReadStatus.otherFailure) →
      inp.collect1Ok = true → inp.collect2Ok = true → runCycle m inp = none) ∧
    (inp.receiverAlive = false → inp.collect1Ok = true → inp.collect2Ok = true →
      ∀ sat, collectFullyConsumed (m.cores_to_monitor.zip inp.reads) = some sat →
        sat ≠ [] → runCycle m inp = none) ∧
    (∀ (openOk : Bool) (addOks : List Bool),
      setupQuery openOk addOks = some () ↔
        openOk = true ∧ ∀ b ∈ addOks, b = true) := by
  refine ⟨?_, ?_, ?_, ?_, ?_, ?_, ?_⟩
  · intro hnf h1 h2 hr
    have hcol := collectFullyConsumed_of_no_failure (m.cores_to_monitor.zip inp.reads)
      (fun p hp => hnf p.2 (List.of_mem_zip hp).2)
    simp only [runCycle, h1, h2, hr, hcol, Bool.not_true, Bool.false_eq_true,
      if_false]
    split <;> simp
  · intro hnf
    exact collectFullyConsumed_of_no_failure _
      (fun p hp => hnf p.2 (List.of_mem_zip hp).2)
  · intro h1
    simp [runCycle, h1]
  · intro h2
    simp [runCycle, h2]
  · intro hex h1 h2
    have hcol := collectFullyConsumed_of_failure _ hex
    simp [runCycle, h1, h2, hcol]
  · intro hr h1 h2 sat hsat hne
    simp [runCycle, h1, h2, hr, hsat, hne]
  · intro openOk addOks
    cases openOk <;> simp [setupQuery, addCounters_eq_some]

/-- C6 witness: a power-gated core is skipped while the others are
still classified, and an unclassified read failure kills the cycle. -/
theorem C6_error_taxonomy_witness :
    collectFullyConsumed ((CpuMonitor.new [0, 1, 2] false true).cores_to_monitor.zip
        (({ collect1Ok := true, collect2Ok := true,
            reads := [⟨.calcNegativeValue, .other, 0⟩,
              ⟨.success, .validData, 100⟩, ⟨.success, .validData, 101⟩],
            receiverAlive := true } : CycleInput)).reads) = some [1, 2] ∧
    runCycle (CpuMonitor.new [0] false true)
        ⟨true, true, [⟨.otherFailure, .validData, 100⟩], true⟩ = none :=
  ⟨((C6_error_taxonomy (CpuMonitor.new [0, 1, 2] false true)
      { collect1Ok := true, collect2Ok := true,
        reads := [⟨.calcNegativeValue, .other, 0⟩,
          ⟨.success, .validData, 100⟩, ⟨.success, .validData, 101⟩],
        receiverAlive := true }).2.1 (by decide)).trans (by decide),
   (C6_error_taxonomy (CpuMonitor.new [0] false true)
      ⟨true, true, [⟨.otherFailure, .validData, 100⟩], true⟩).2.2.2.2.1
     (by decide) rfl rfl⟩

end RustToy
